import Mathlib

/-
  Verification of the ICD-10 lookup application (`src/icd10_lookup_app.py`)
  against its natural-language specification.

  The development shallowly embeds the data pipeline of the source file:
  `_find_column` (header keyword resolution), `load_icd10_data`
  (normalization of the raw spreadsheet into the canonical columns
  code / short_description / long_description / chapter / status / category /
  search_blob), `apply_filters` (the query matcher), the pagination slice of
  `main`, and `call_perplexity_icd_explanation` (the AI-explanation helper
  with its try/except structure made explicit).

  Raw spreadsheet cells are modelled as `Option String`: `none` is the pandas
  missing value (NaN), `some s` a string cell.  `astype(str)` turns `none`
  into the literal string "nan", exactly as pandas does.
-/

namespace ICD10

/-- Python `sub in s` on lists of characters: `sub` occurs contiguously in
`s` (the empty list occurs in every list). -/
def listContains (s sub : List Char) : Bool :=
  (List.range (s.length + 1)).any (fun i => sub.isPrefixOf (s.drop i))

/-- Python `sub in s` for strings (plain substring containment). -/
def containsSubstr (s sub : String) : Bool :=
  listContains s.data sub.data

/-- Python `str.lower()`: lower-case every character (the app's data is
ASCII, where `Char.toLower` agrees with Python). -/
def pyLower (s : String) : String := ⟨s.data.map Char.toLower⟩

/-- Python `str.strip()`: remove leading and trailing whitespace. -/
def pyStrip (s : String) : String :=
  ⟨((s.data.dropWhile Char.isWhitespace).reverse.dropWhile Char.isWhitespace).reverse⟩

/-- Python `str.startswith(p)`. -/
def pyStartsWith (s p : String) : Bool := p.data.isPrefixOf s.data

/-- pandas `astype(str)` on one object cell: a missing value (NaN) becomes
the literal string "nan"; a string cell is unchanged. -/
def pyStr (cell : Option String) : String :=
  match cell with
  | none => "nan"
  | some s => s

/-- A raw spreadsheet as handed to `load_icd10_data`: the header row and the
data rows, each row holding one `Option String` cell per header (`none` is a
missing value). -/
structure RawDataset where
  headers : List String
  rows : List (List (Option String))
deriving Repr, DecidableEq

/-- One row of the normalized DataFrame built by `load_icd10_data`:
columns code, short_description, long_description, chapter, status,
category (an extracted group, possibly missing) and search_blob. -/
structure Record where
  code : String
  short_description : String
  long_description : String
  chapter : String
  status : String
  category : Option String
  search_blob : String
deriving Repr, DecidableEq

/-- Python dict insertion with the dict-comprehension semantics of
`{c.lower(): c for c in df.columns}`: writing to an existing key keeps the
key's original position but replaces its value; a new key is appended. -/
def insertKeepPos (m : List (String × String)) (k v : String) :
    List (String × String) :=
  if m.any (fun p => p.1 == k) then
    m.map (fun p => if p.1 == k then (k, v) else p)
  else m ++ [(k, v)]

/-- The dict `{c.lower(): c for c in df.columns}` built in `_find_column`
(source line 203), as an association list in dict iteration order. -/
def loweredDict (headers : List String) : List (String × String) :=
  headers.foldl (fun m c => insertKeepPos m (pyLower c) c) []

/-- The keyword loop of `_find_column` (source lines 204-208): for each
keyword in list order, scan the lowered-header dict in order and return the
original header of the first lowered name containing the keyword. -/
def findColumnGo (lowered : List (String × String)) :
    List String → Option String
  | [] => none
  | key :: rest =>
    match lowered.find? (fun p => containsSubstr p.1 (pyLower key)) with
    | some p => some p.2
    | none => findColumnGo lowered rest

/-- `_find_column(df, keywords)` (source lines 201-209): first column name
containing any of the keywords, `none` when no keyword matches. -/
def find_column (headers keywords : List String) : Option String :=
  findColumnGo (loweredDict headers) keywords

/-- The cell of `row` under column `col` of the dataset (`df_raw[col]` for
one row); `none` when the column is absent or the row is short. -/
def cellOf (ds : RawDataset) (row : List (Option String)) (col : String) :
    Option String :=
  match ds.headers.findIdx? (fun h => h == col) with
  | some i => row.getD i none
  | none => none

/-- `df_raw[col].astype(str).str.strip() if col else ""` (source lines
240-248) evaluated at one row: the stripped string cell of the resolved
column, or the empty string when no column was resolved. -/
def field_of (ds : RawDataset) (row : List (Option String))
    (col : Option String) : String :=
  match col with
  | some c => pyStrip (pyStr (cellOf ds row c))
  | none => ""

/-- `df["code"].str.extract(r"^([A-Z]\\d{2})", expand=False)` (source line
251) on one code.  The pattern is written in a raw Python string, so the
regex engine receives `^([A-Z]\\d{2})`: one character in `A`-`Z`, then an
escaped literal backslash, then the literal character `d` twice.  The
capture (4 characters) is returned when the code starts that way, and the
pandas missing value (`none`) otherwise. -/
def extractCategory (code : String) : Option String :=
  match code.data with
  | c0 :: c1 :: c2 :: c3 :: _ =>
    if ('A' ≤ c0 && c0 ≤ 'Z') && c1 == '\\' && c2 == 'd' && c3 == 'd' then
      some (String.mk [c0, c1, c2, c3])
    else none
  | _ => none

/-- Build one normalized row from a raw row, given the resolved columns
(source lines 239-260): stripped string fields, the category extract, and
`search_blob = (code + " " + short + " " + long + " " + chapter).lower()`. -/
def buildRecord (ds : RawDataset)
    (code_col short_col long_col chapter_col status_col : Option String)
    (row : List (Option String)) : Record :=
  let code := field_of ds row code_col
  let short := field_of ds row short_col
  let long := field_of ds row long_col
  let chap := field_of ds row chapter_col
  let stat := field_of ds row status_col
  { code := code
    short_description := short
    long_description := long
    chapter := chap
    status := stat
    category := extractCategory code
    search_blob := pyLower (code ++ " " ++ short ++ " " ++ long ++ " " ++ chap) }

/-- A Python `str` stored in a pandas object column is a present (non-NA)
cell. -/
def pdCell (s : String) : Option String := some s

/-- pandas missing-value test on one object cell. -/
def pdIsNA (v : Option String) : Bool := v.isNone

/-- `df.dropna(subset=["code"])` (source line 262): keep the rows whose
`code` cell is not the pandas missing value.  Every entry of the `code`
column was produced either by `astype(str)` (which turns NaN into the
string "nan") or by the literal `""` fallback, so every entry is a present
`str` and the call keeps every row — including rows whose code stripped to
the empty string. -/
def dropna_subset_code (rows : List Record) : List Record :=
  rows.filter (fun r => !(pdIsNA (pdCell r.code)))

/-- `load_icd10_data` (source lines 212-263), from the point where the raw
DataFrame is in memory: resolve the five roles with `_find_column`, build
the normalized columns, derive `category` and `search_blob`, and apply
`dropna(subset=["code"])` followed by `reset_index(drop=True)` (a pure
renumbering).  When no header matches "code", the source executes
`df["code"] = ""` on the still-empty DataFrame, which fixes an empty index;
every subsequent column assignment aligns to that empty index, so the
output has zero rows. -/
def load_icd10_data (ds : RawDataset) : List Record :=
  let code_col := find_column ds.headers ["code"]
  let short_col := find_column ds.headers ["short description", "short desc"]
  let long_col := find_column ds.headers ["long description", "long desc"]
  let chapter_col := find_column ds.headers ["chapter"]
  let status_col := find_column ds.headers ["status", "included", "excluded"]
  match code_col with
  | none => []
  | some c =>
    dropna_subset_code
      (ds.rows.map
        (buildRecord ds (some c) short_col long_col chapter_col status_col))

/-- One token of the fragment of Python regular-expression syntax exercised
by `apply_filters`: a literal character or the `.` wildcard. -/
inductive RTok where
  | lit (c : Char)
  | dot
deriving Repr, DecidableEq

/-- Compilation of a Python regex pattern, restricted to the fragment this
development exercises: `.` is the any-character wildcard, `(` and `)` open
and close a (plain, non-quantified) group, every other character is a
literal.  An unterminated `(` is the `re.error` "missing ), unterminated
subpattern" that Python raises; a stray `)` is "unbalanced parenthesis".
The quantifier and class metacharacters of full Python regex syntax are not
modelled; no theorem below exercises a pattern containing them. -/
def reParseGo : List Char → Nat → Except String (List RTok)
  | [], 0 => Except.ok []
  | [], _ + 1 => Except.error "missing ), unterminated subpattern"
  | c :: rest, d =>
    if c == '(' then
      reParseGo rest (d + 1)
    else if c == ')' then
      match d with
      | 0 => Except.error "unbalanced parenthesis"
      | e + 1 => reParseGo rest e
    else
      match reParseGo rest d with
      | Except.ok ts =>
        Except.ok ((if c == '.' then RTok.dot else RTok.lit c) :: ts)
      | Except.error msg => Except.error msg

/-- `re.compile(pattern)` for the modelled fragment. -/
def reParse (cs : List Char) : Except String (List RTok) :=
  reParseGo cs 0

/-- Does the token list match a prefix of `s`? -/
def reMatchHere : List RTok → List Char → Bool
  | [], _ => true
  | _ :: _, [] => false
  | t :: ts, c :: cs =>
    (match t with
     | RTok.lit l => l == c
     | RTok.dot => true) && reMatchHere ts cs

/-- `re.search`: does the compiled pattern match at some position of `s`?
This is the matching `Series.str.contains(pat)` performs per cell. -/
def reSearch (ts : List RTok) (s : List Char) : Bool :=
  (List.range (s.length + 1)).any (fun i => reMatchHere ts (s.drop i))

/-- The filter values returned by `render_sidebar` (source lines 395-400):
the dict keys "query", "code_prefix", "status" and "page_size".  The
"code_prefix" key is named `code_start` here. -/
structure Params where
  query : String
  code_start : String
  status : String
  page_size : Nat
deriving Repr, DecidableEq

/-- `apply_filters(df, params)` (source lines 403-421).  The code-letter
filter and the status filter keep matching rows (the normalized frame
always has a `status` column, so the `"status" in df_f.columns` guard is
true); the text search lowers and strips the query and keeps rows whose
`search_blob` contains it — via `Series.str.contains`, whose first argument
is a regular expression, so an invalid pattern raises (`Except.error`).
`reset_index(drop=True)` renumbers and changes no row. -/
def apply_filters (df : List Record) (params : Params) : Except String (List Record) :=
  let df_f := df
  let df_f := if params.code_start ≠ "All"
    then df_f.filter (fun r => pyStartsWith r.code params.code_start)
    else df_f
  let df_f := if params.status ≠ "All"
    then df_f.filter (fun r => r.status == params.status)
    else df_f
  let query := pyLower (pyStrip params.query)
  if query ≠ "" then
    match reParse query.data with
    | Except.error msg => Except.error msg
    | Except.ok pat => Except.ok (df_f.filter (fun r => reSearch pat r.search_blob.data))
  else
    Except.ok df_f

/-- The pagination slice of `main` (source lines 567-569):
`start = (page - 1) * page_size; end = start + page_size;
page_df = df_filtered.iloc[start:end]` — Python slicing clamps both ends
to the frame length. -/
def paginate_main (df_filtered : List Record) (page page_size : Nat) : List Record :=
  let start := (page - 1) * page_size
  (df_filtered.drop start).take page_size

/-- `total_matches` as displayed by `main` (source line 547): the length of
the filtered frame. -/
def total_matches (df_filtered : List Record) : Nat :=
  df_filtered.length

/-- The `"message"` object inside one choice of the Perplexity response;
`content = none` models an absent `"content"` key. -/
structure PplxMessage where
  content : Option String
deriving Repr, DecidableEq

/-- One element of the `"choices"` list; `message = none` models an absent
`"message"` key (the code then falls back to the empty dict `{}`). -/
structure PplxChoice where
  message : Option PplxMessage
deriving Repr, DecidableEq

/-- The decoded JSON body; `choices = none` models an absent `"choices"`
key (the code then falls back to the default `[{}]`). -/
structure PplxData where
  choices : Option (List PplxChoice)
deriving Repr, DecidableEq

/-- An HTTP response: the status code, and the outcome of `.json()`
(`Except.error` models the exception raised on a malformed body). -/
structure HttpResponse where
  status_code : Nat
  json : Except String PplxData
deriving Repr

/-- The outside world as seen by `call_perplexity_icd_explanation`: whether
an API key is configured, and the outcome of `requests.post`
(`Except.error` models a raised network exception). -/
structure PplxEnv where
  api_key : Option String
  post : Except String HttpResponse
deriving Repr

/-- The body of the `try` block of `call_perplexity_icd_explanation`
(source lines 332-346), with every Python exception made explicit as
`Except.error`: `requests.post` may raise; a non-200 status returns an
error string; `.json()` may raise; `data.get("choices", [{}])[0]` raises
IndexError on an empty choices list; the `.get` fallbacks default the
message to `{}` and the content to `""`; empty content returns a fallback
string. -/
def pplx_try_body (env : PplxEnv) : Except String String := do
  let resp ← env.post
  if resp.status_code ≠ 200 then
    return "AI error (status " ++ toString resp.status_code ++ "). Please try again later."
  let data ← resp.json
  let choices := data.choices.getD [{ message := none }]
  match choices with
  | [] => Except.error "IndexError: list index out of range"
  | c :: _ =>
    let msg := c.message.getD { content := none }
    let content := (msg.content.getD "").trim
    if content = "" then
      return "AI did not return any text. Please try again later."
    else
      return content

/-- `call_perplexity_icd_explanation` (source lines 281-349).  The record
fields only shape the prompt, which is abstracted into `env.post`; the
return type `Except String String` distinguishes a raised exception
(`Except.error`, never produced) from a returned string.  A missing API key
returns the configuration message; every exception of the `try` body is
caught by `except Exception as e` and turned into the string
`"AI error: " + e`. -/
def call_perplexity_icd_explanation (env : PplxEnv)
    (code short_desc long_desc chapter : String) : Except String String :=
  let _ := (code, short_desc, long_desc, chapter)
  match env.api_key with
  | none =>
    Except.ok ("AI explanation is not configured. " ++
      "Please add `PPLX_API_KEY` to Streamlit secrets or environment.")
  | some _ =>
    match pplx_try_body env with
    | Except.ok s => Except.ok s
    | Except.error e => Except.ok ("AI error: " ++ e)

/-- A heap of pandas DataFrames, for stating that `apply_filters` mutates
none of its inputs: `frames` is the list of allocated frames, a frame is
referred to by its index. -/
structure PdStore where
  frames : List (List Record)
deriving Repr, DecidableEq

/-- Allocate a fresh DataFrame object holding `f`; returns the new store
and the reference to the new frame. -/
def pdAlloc (s : PdStore) (f : List Record) : PdStore × Nat :=
  ({ frames := s.frames ++ [f] }, s.frames.length)

/-- Read the frame a reference points to. -/
def pdRead (s : PdStore) (i : Nat) : List Record :=
  s.frames.getD i []

/-- A conditional boolean-mask selection `df_f = df_f[mask]`: when the
guard is true, read the current frame and allocate a new frame holding the
kept rows; otherwise keep the current reference. -/
def pdStepFilter (st : PdStore × Nat) (guard : Bool) (pred : Record → Bool) :
    PdStore × Nat :=
  if guard then pdAlloc st.1 ((pdRead st.1 st.2).filter pred) else st

/-- `apply_filters` with object identity made explicit (source lines
403-421): `df.copy()` allocates a copy; each boolean-mask selection
(`df_f[mask]`) reads its operand and allocates a new frame; `reset_index
(drop=True)` allocates a new frame; no operation writes into an existing
frame.  Returns the final store and either a reference to the result frame
or the regex error raised inside `str.contains`. -/
def apply_filters_st (s0 : PdStore) (df : Nat) (params : Params) :
    PdStore × Except String Nat :=
  let st1 := pdAlloc s0 (pdRead s0 df)
  let st2 := pdStepFilter st1 (params.code_start != "All")
    (fun r => pyStartsWith r.code params.code_start)
  let st3 := pdStepFilter st2 (params.status != "All")
    (fun r => r.status == params.status)
  let query := pyLower (pyStrip params.query)
  if query ≠ "" then
    match reParse query.data with
    | Except.error msg => (st3.1, Except.error msg)
    | Except.ok pat =>
      let st4 := pdAlloc st3.1
        ((pdRead st3.1 st3.2).filter (fun r => reSearch pat r.search_blob.data))
      let st5 := pdAlloc st4.1 (pdRead st4.1 st4.2)
      (st5.1, Except.ok st5.2)
  else
    let st4 := pdAlloc st3.1 (pdRead st3.1 st3.2)
    (st4.1, Except.ok st4.2)

/-- Store `s'` extends store `s`: every already-allocated frame of `s` is
still there, unchanged, at the same reference. -/
def StoreExt (s s' : PdStore) : Prop :=
  ∃ l, s'.frames = s.frames ++ l

/-- Word characters for the spec's "whole word" notion (regex `\w`):
alphanumerics and underscore. -/
def isWordChar (c : Char) : Bool := c.isAlphanum || c == '_'

/-- Spec-side definition (spec §4.2): `q` occurs in `s` as a whole word —
a contiguous occurrence whose neighbours on both sides are absent or
non-word characters. -/
def wholeWordIn (q s : List Char) : Bool :=
  (List.range (s.length + 1)).any (fun i =>
    q.isPrefixOf (s.drop i)
    && (i == 0 || !(isWordChar (s.getD (i - 1) ' ')))
    && (i + q.length == s.length || !(isWordChar (s.getD (i + q.length) ' '))))

/-- Spec-side definition, written from the spec's words (§4.2, default
ranked mode) for comparison against the code: the additive score of a
record for a query — +120 exact lower-cased code match, +80 code starts
with the query, +70 whole-word occurrence in `short_description`, +50
substring occurrence in `short_description`, +25 substring occurrence in
`long_description`, +15 substring occurrence in `category`; all
case-insensitive. -/
def specScore (q : String) (r : Record) : Nat :=
  let ql := pyLower q
  (if pyLower r.code == ql then 120 else 0)
  + (if pyStartsWith (pyLower r.code) ql then 80 else 0)
  + (if wholeWordIn ql.data (pyLower r.short_description).data then 70 else 0)
  + (if containsSubstr (pyLower r.short_description) ql then 50 else 0)
  + (if containsSubstr (pyLower r.long_description) ql then 25 else 0)
  + (if containsSubstr (pyLower (r.category.getD "")) ql then 15 else 0)

/-- Spec-side definition, written from the claim's words (C3): the code
role is the first header, in original order, whose lowered form contains
"code" or "icd"; with a fallback to the first header of the dataset. -/
def specFindCode (headers : List String) : Option String :=
  match headers.find? (fun h =>
      containsSubstr (pyLower h) "code" || containsSubstr (pyLower h) "icd") with
  | some h => some h
  | none => headers.head?

/-- A dataset with code, short and long descriptions and a chapter column;
the query "gamma" occurs only in the chapter field of its single record. -/
def dsChapterHit : RawDataset :=
  ⟨["CODE", "SHORT DESCRIPTION", "LONG DESCRIPTION", "CHAPTER"],
   [[some "QQ1", some "alpha", some "beta", some "gamma"]]⟩

/-- A dataset whose single row has a whitespace-only code cell. -/
def dsBlankCode : RawDataset :=
  ⟨["CODE", "SHORT DESCRIPTION"], [[some "   ", some "x"]]⟩

/-- A dataset with an "ICD" header before a "CODE" header: the claimed
keyword list would pick "ICD", the code picks "CODE". -/
def dsIcdFirst : RawDataset :=
  ⟨["ICD", "CODE"], [[some "row1icd", some "A01 "]]⟩

/-- A dataset with a normal code "E11" and a code that actually matches the
doubly-escaped category pattern (letter, backslash, "dd"). -/
def dsCategory : RawDataset :=
  ⟨["CODE", "SHORT DESCRIPTION"],
   [[some "E11", some "Type 2 diabetes"], [some "A\\dd9", some "demo"]]⟩

/-- A dataset with zero columns and zero rows (an empty sheet). -/
def dsZeroCols : RawDataset := ⟨[], []⟩

/-- A dataset whose single row has a missing (NaN) code cell. -/
def dsNanCode : RawDataset := ⟨["CODE"], [[none]]⟩

/-- The normalized record `load_icd10_data` produces for `dsNanCode`:
`astype(str)` turns the missing cell into the string "nan". -/
def recordNan : Record :=
  { code := "nan", short_description := "", long_description := "",
    chapter := "", status := "", category := none, search_blob := "nan   " }

/-- Sidebar parameters with no letter filter, no status filter, and the
query "gamma". -/
def paramsGamma : Params :=
  { query := "gamma", code_start := "All", status := "All", page_size := 30 }

/-- Sidebar parameters with the query "Alpha" (mixed case, metacharacter
free). -/
def paramsAlpha : Params :=
  { query := "Alpha", code_start := "All", status := "All", page_size := 30 }

/-- Sidebar parameters whose query "a.c" contains the regex wildcard. -/
def paramsDot : Params :=
  { query := "a.c", code_start := "All", status := "All", page_size := 30 }

/-- Sidebar parameters whose query "(" is not a valid regular expression. -/
def paramsParen : Params :=
  { query := "(", code_start := "All", status := "All", page_size := 30 }

/-- A record whose search blob contains "axc" (so the regex "a.c" matches)
but not the literal substring "a.c". -/
def recordAxc : Record :=
  { code := "ZAXCQ", short_description := "axc item", long_description := "",
    chapter := "", status := "", category := none,
    search_blob := "zaxcq axc item  " }

/-- A table of 25 records with distinct codes, for the pagination boundary
scenario of the spec. -/
def rows25 : List Record :=
  (List.range 25).map (fun i =>
    { code := "C" ++ toString i, short_description := "", long_description := "",
      chapter := "", status := "", category := none, search_blob := "" })

/-- A one-frame store holding the `dsChapterHit` table at reference 0. -/
def storeOne : PdStore := { frames := [load_icd10_data dsChapterHit] }

theorem anyCongr {α : Type} (l : List α) (f g : α → Bool)
    (h : ∀ a, f a = g a) : l.any f = l.any g := by
  induction l with
  | nil => rfl
  | cons a t ih => simp [List.any_cons, h a, ih]

theorem reMatchHere_lit (q s : List Char) :
    reMatchHere (q.map RTok.lit) s = q.isPrefixOf s := by
  induction q generalizing s with
  | nil => cases s <;> simp [reMatchHere, List.isPrefixOf]
  | cons a t ih =>
    cases s with
    | nil => simp [reMatchHere, List.isPrefixOf]
    | cons b u => simp [reMatchHere, List.isPrefixOf, ih]

theorem reSearch_lit (q s : List Char) :
    reSearch (q.map RTok.lit) s = listContains s q := by
  unfold reSearch listContains
  exact anyCongr _ _ _ (fun i => by rw [reMatchHere_lit])

theorem reParse_safe (cs : List Char)
    (h : (cs.all fun c => c.isAlphanum || c == ' ') = true) :
    reParse cs = Except.ok (cs.map RTok.lit) := by
  unfold reParse
  induction cs with
  | nil => rfl
  | cons c rest ih =>
    rw [List.all_cons, Bool.and_eq_true] at h
    obtain ⟨hc, hrest⟩ := h
    have h1 : (c == '(') = false := by
      cases hb : c == '(' with
      | false => rfl
      | true => rw [eq_of_beq hb] at hc; exact absurd hc (by decide)
    have h2 : (c == ')') = false := by
      cases hb : c == ')' with
      | false => rfl
      | true => rw [eq_of_beq hb] at hc; exact absurd hc (by decide)
    have h3 : (c == '.') = false := by
      cases hb : c == '.' with
      | false => rfl
      | true => rw [eq_of_beq hb] at hc; exact absurd hc (by decide)
    simp [reParseGo, h1, h2, h3, ih hrest]

theorem storeExtTrans {a b c : PdStore} (h1 : StoreExt a b) (h2 : StoreExt b c) :
    StoreExt a c := by
  obtain ⟨l1, e1⟩ := h1
  obtain ⟨l2, e2⟩ := h2
  exact ⟨l1 ++ l2, by rw [e2, e1, List.append_assoc]⟩

theorem storeExtAlloc (s : PdStore) (f : List Record) :
    StoreExt s (pdAlloc s f).1 := ⟨[f], rfl⟩

theorem storeExtStep (st : PdStore × Nat) (guard : Bool) (pred : Record → Bool) :
    StoreExt st.1 (pdStepFilter st guard pred).1 := by
  cases guard with
  | false => exact ⟨[], (List.append_nil _).symm⟩
  | true => exact ⟨[(pdRead st.1 st.2).filter pred], rfl⟩

theorem storeExtApplyFilters (s : PdStore) (i : Nat) (p : Params) :
    StoreExt s (apply_filters_st s i p).1 := by
  unfold apply_filters_st
  dsimp only
  have hbase : StoreExt s
      (pdStepFilter
        (pdStepFilter (pdAlloc s (pdRead s i)) (p.code_start != "All")
          (fun r => pyStartsWith r.code p.code_start))
        (p.status != "All") (fun r => r.status == p.status)).1 :=
    storeExtTrans (storeExtTrans (storeExtAlloc _ _) (storeExtStep _ _ _))
      (storeExtStep _ _ _)
  split
  · split
    · exact hbase
    · exact storeExtTrans hbase
        (storeExtTrans (storeExtAlloc _ _) (storeExtAlloc _ _))
  · exact storeExtTrans hbase (storeExtAlloc _ _)

theorem anyFstEqFalse {m : List (String × String)} {k : String}
    (h : k ∉ m.map Prod.fst) : (m.any fun p => p.1 == k) = false := by
  rw [List.any_eq_false]
  intro p hp hbeq
  exact h (List.mem_map.mpr ⟨p, hp, eq_of_beq hbeq⟩)

theorem insertKeepPosNotMem {m : List (String × String)} {k v : String}
    (h : k ∉ m.map Prod.fst) : insertKeepPos m k v = m ++ [(k, v)] := by
  unfold insertKeepPos
  rw [anyFstEqFalse h]
  rfl

theorem loweredDictAux (hs : List String) (m : List (String × String))
    (h : ((m.map Prod.fst) ++ hs.map pyLower).Nodup) :
    hs.foldl (fun acc c => insertKeepPos acc (pyLower c) c) m
      = m ++ hs.map (fun c => (pyLower c, c)) := by
  induction hs generalizing m with
  | nil => simp
  | cons hd tl ih =>
    rw [List.map_cons, List.append_cons] at h
    have hnm : pyLower hd ∉ m.map Prod.fst := by
      rw [List.nodup_append] at h
      obtain ⟨hl, _, _⟩ := h
      rw [List.nodup_append] at hl
      exact fun hmem => hl.2.2 hmem (List.mem_singleton.mpr rfl)
    have hih : (((m ++ [(pyLower hd, hd)]).map Prod.fst)
        ++ tl.map pyLower).Nodup := by
      rw [List.map_append]
      simpa using h
    rw [List.foldl_cons, insertKeepPosNotMem hnm, ih (m ++ [(pyLower hd, hd)]) hih]
    simp

theorem loweredDictNodup (headers : List String)
    (h : (headers.map pyLower).Nodup) :
    loweredDict headers = headers.map (fun c => (pyLower c, c)) := by
  unfold loweredDict
  rw [loweredDictAux headers [] (by simpa using h)]
  simp

theorem findColumnGoSingle (headers : List String) (key : String) :
    findColumnGo (headers.map fun c => (pyLower c, c)) [key]
      = headers.find? (fun h => containsSubstr (pyLower h) (pyLower key)) := by
  induction headers with
  | nil => rfl
  | cons hd t ih =>
    unfold findColumnGo at ih ⊢
    rw [List.map_cons, List.find?_cons, List.find?_cons]
    simp only []
    cases hc : containsSubstr (pyLower hd) (pyLower key)
    · simpa using ih
    · rfl

theorem takeMinLength {α : Type} (l : List α) (n : Nat) :
    l.take (min n l.length) = l.take n := by
  rcases le_total n l.length with h | h
  · rw [min_eq_left h]
  · rw [min_eq_right h, List.take_length, List.take_of_length_le h]

/-- C2: the claim says a row whose code value trims to the empty string is
dropped by normalization.  The code is wrong: on a dataset whose single row
has the whitespace-only code cell "   ", `load_icd10_data` keeps the row
with `code = ""` — `dropna(subset=["code"])` only removes pandas missing
values, which cannot occur in a column produced by `astype(str)`. -/
theorem C2_code_behavior :
    load_icd10_data dsBlankCode =
      [{ code := "", short_description := "x", long_description := "",
         chapter := "", status := "", category := none, search_blob := " x  " }] := by
  rfl

/-- C4: the claim says a record built with no category column has
`category = code[0:3]`.  The code is wrong: the extraction pattern is the
raw Python string `r"^([A-Z]\\d{2})"`, whose `\\d` matches a literal
backslash followed by the character `d`, so the record with code "E11" gets
the missing value (`none`) as its category, not "E11"; only a code that
literally starts with letter-backslash-"dd" gets a category. -/
theorem C4_code_behavior :
    (load_icd10_data dsCategory).map Record.code = ["E11", "A\\dd9"]
    ∧ (load_icd10_data dsCategory).map Record.category = [none, some "A\\dd"] :=
  ⟨rfl, rfl⟩

/-- C7 counterexample: the claim says normalization fails with a
`SchemaError` when the dataset has zero columns or the code column is
missing in a row.  Instead, `load_icd10_data` raises nothing: a
zero-column dataset yields the empty table, and a missing (NaN) code cell
yields a record whose code is the literal string "nan". -/
theorem C7_counterexample :
    load_icd10_data dsZeroCols = [] ∧ load_icd10_data dsNanCode = [recordNan] :=
  ⟨rfl, rfl⟩

/-- C3 counterexample: the claim says the code role goes to the first
header whose lowered form contains "code" or "icd".  On headers
["ICD", "CODE"] that would be "ICD", but `load_icd10_data` passes only the
keyword list `["code"]` to `_find_column`, so "CODE" is resolved and the
record's code is "A01" (the CODE cell), not "row1icd" (the ICD cell). -/
theorem C3_counterexample :
    find_column dsIcdFirst.headers ["code"] = some "CODE"
    ∧ specFindCode dsIcdFirst.headers = some "ICD"
    ∧ (load_icd10_data dsIcdFirst).map Record.code = ["A01"]
    ∧ ("CODE" : String) ≠ "ICD" :=
  ⟨rfl, rfl, rfl, by decide⟩

/-- C5 counterexample: the claim says that with no chapter column the
chapter is derived from the uppercase first letter of the code via a fixed
lookup table (e.g. "E" maps to "Endocrine & Metabolic") with an
"Unmapped"/"Unknown" fallback.  The code has no such table: on a dataset
with no chapter column, the record with code "E11" gets the empty string as
its chapter, which is neither the table entry for "E" nor either
fallback. -/
theorem C5_counterexample :
    (load_icd10_data dsCategory).map Record.chapter = ["", ""]
    ∧ ("" : String) ≠ "Endocrine & Metabolic"
    ∧ ("" : String) ≠ "Unmapped"
    ∧ ("" : String) ≠ "Unknown" :=
  ⟨rfl, by decide, by decide, by decide⟩

/-- C1 counterexample: the claim says search with non-empty text returns
only records with positive additive score (under the spec's scoring rule)
and orders by descending score.  On the query "gamma", which occurs only in
the chapter field of the single record of `dsChapterHit`, `apply_filters`
returns the record even though its spec score is 0: the code matches
against `search_blob` (which includes the chapter) and computes no score at
all. -/
theorem C1_counterexample :
    apply_filters (load_icd10_data dsChapterHit) paramsGamma
      = Except.ok (load_icd10_data dsChapterHit)
    ∧ (load_icd10_data dsChapterHit).length = 1
    ∧ ((load_icd10_data dsChapterHit).all fun r => specScore "gamma" r == 0) = true :=
  ⟨rfl, rfl, rfl⟩

/-- C10: the text matcher passes the query to `Series.str.contains`, which
interprets it as a regular expression: the query "a.c" matches the record
whose blob contains "axc" although "a.c" is not a literal substring of the
blob, and the query "(" is an invalid pattern on which `apply_filters`
raises (`re.error`, modelled as `Except.error`) instead of returning. -/
theorem C10_regex_semantics :
    apply_filters [recordAxc] paramsDot = Except.ok [recordAxc]
    ∧ containsSubstr recordAxc.search_blob "a.c" = false
    ∧ ([recordAxc].filter fun r => containsSubstr r.search_blob "a.c") = []
    ∧ apply_filters [recordAxc] paramsParen
        = Except.error "missing ), unterminated subpattern" :=
  ⟨rfl, rfl, rfl, rfl⟩

/-- C1 amended: for every table and every query whose stripped, lower-cased
text is non-empty and metacharacter free, with no letter and no status
facet, `apply_filters` returns exactly the records whose `search_blob`
contains the stripped lower-cased query as a substring, in original
insertion order (a filter); it computes no score, and records the spec
would score 0 (for example chapter-only matches) are included. -/
theorem C1_code_behavior (tbl : List Record) (p : Params)
    (hcs : p.code_start = "All") (hst : p.status = "All")
    (hne : pyLower (pyStrip p.query) ≠ "")
    (hsafe : ((pyLower (pyStrip p.query)).data.all
      fun c => c.isAlphanum || c == ' ') = true) :
    apply_filters tbl p
      = Except.ok (tbl.filter fun r =>
          containsSubstr r.search_blob (pyLower (pyStrip p.query))) := by
  have hp := reParse_safe _ hsafe
  unfold apply_filters
  dsimp only
  rw [hcs, hst, if_pos hne, hp]
  dsimp only
  rw [if_neg (by simp), if_neg (by simp)]
  congr 1
  apply List.filter_congr
  intro r _
  rw [reSearch_lit]
  rfl

/-- Witness for C1_code_behavior at the one-record table of `dsChapterHit`
and the query "Alpha". -/
theorem C1_code_behavior_witness :
    apply_filters (load_icd10_data dsChapterHit) paramsAlpha
      = Except.ok ((load_icd10_data dsChapterHit).filter fun r =>
          containsSubstr r.search_blob (pyLower (pyStrip paramsAlpha.query))) :=
  C1_code_behavior (load_icd10_data dsChapterHit) paramsAlpha rfl rfl
    (by decide) (by decide)

/-- C3 amended: on headers with pairwise distinct lowered forms, the code
role is resolved to the first header whose lowered form contains the
keyword "code" — "icd" is not in the keyword list `load_icd10_data` passes,
and when no header contains "code" there is no fallback header (the code
column is set to the constant empty string, yielding an empty table). -/
theorem C3_code_behavior (headers : List String)
    (hnd : (headers.map pyLower).Nodup) :
    find_column headers ["code"]
      = headers.find? (fun h => containsSubstr (pyLower h) "code") := by
  unfold find_column
  rw [loweredDictNodup headers hnd, findColumnGoSingle]
  rfl

/-- Witness for C3_code_behavior on the headers ["ICD10CODE", "B"]. -/
theorem C3_code_behavior_witness :
    find_column ["ICD10CODE", "B"] ["code"]
      = ["ICD10CODE", "B"].find? (fun h => containsSubstr (pyLower h) "code") :=
  C3_code_behavior ["ICD10CODE", "B"] (by decide)

/-- C5 amended: when no header matches "chapter", every record of the
normalized table has the empty string as its chapter — no first-letter
lookup table exists in the code. -/
theorem C5_code_behavior (ds : RawDataset)
    (hch : find_column ds.headers ["chapter"] = none) :
    ∀ r ∈ load_icd10_data ds, r.chapter = "" := by
  intro r hr
  simp only [load_icd10_data] at hr
  cases hcc : find_column ds.headers ["code"] with
  | none => rw [hcc] at hr; simp at hr
  | some c =>
    rw [hcc, hch] at hr
    unfold dropna_subset_code at hr
    rw [List.mem_filter] at hr
    obtain ⟨hm, _⟩ := hr
    rw [List.mem_map] at hm
    obtain ⟨row, _, hrow⟩ := hm
    rw [← hrow]
    simp [buildRecord, field_of]

/-- Witness for C5_code_behavior at `dsCategory` (no chapter column) and
its first record. -/
theorem C5_code_behavior_witness :
    ({ code := "E11", short_description := "Type 2 diabetes",
       long_description := "", chapter := "", status := "", category := none,
       search_blob := "e11 type 2 diabetes  " } : Record).chapter = "" :=
  C5_code_behavior dsCategory rfl _ (by decide)

/-- C6: for every filtered set and every `page_size ≥ 1` and 1-based
`page`, the slice of `main` is `[(page-1)*page_size, page*page_size)`
clamped to the table length; on the 25-record table `rows25` with page
size 10, page 1 has exactly 10 records with `total_matches = 25`, and
page 3 is exactly the last 5 records, without error. -/
theorem C6_pagination (rows : List Record) (page size : Nat)
    (hp : 1 ≤ page) (hs : 1 ≤ size) :
    paginate_main rows page size
      = (rows.take (min (page * size) rows.length)).drop ((page - 1) * size)
    ∧ total_matches rows25 = 25
    ∧ (paginate_main rows25 1 10).length = 10
    ∧ paginate_main rows25 3 10 = rows25.drop 20
    ∧ (paginate_main rows25 3 10).length = 5 := by
  refine ⟨?_, rfl, rfl, rfl, rfl⟩
  unfold paginate_main
  dsimp only
  have hps : page * size = (page - 1) * size + size := by
    conv_lhs => rw [← Nat.sub_add_cancel hp]
    rw [Nat.add_mul, Nat.one_mul]
  conv_rhs => rw [takeMinLength, hps, List.drop_take, Nat.add_sub_cancel_left]

/-- Witness for C6_pagination at `rows25`, page 2, page size 10. -/
theorem C6_pagination_witness :
    paginate_main rows25 2 10
      = (rows25.take (min (2 * 10) rows25.length)).drop ((2 - 1) * 10)
    ∧ total_matches rows25 = 25
    ∧ (paginate_main rows25 1 10).length = 10
    ∧ paginate_main rows25 3 10 = rows25.drop 20
    ∧ (paginate_main rows25 3 10).length = 5 :=
  C6_pagination rows25 2 10 (by decide) (by decide)

/-- C7 amended: normalization never raises (no `SchemaError` exists); in
particular, when no header contains "code" the output table is simply
empty. -/
theorem C7_code_behavior (ds : RawDataset)
    (h : find_column ds.headers ["code"] = none) :
    load_icd10_data ds = [] := by
  simp only [load_icd10_data]
  rw [h]

/-- Witness for C7_code_behavior at a one-column dataset whose header does
not contain "code". -/
theorem C7_code_behavior_witness :
    load_icd10_data ⟨["X"], [[some "a"]]⟩ = [] :=
  C7_code_behavior ⟨["X"], [[some "a"]]⟩ rfl

/-- C8: for every environment (missing key, raised network error, non-200
status, malformed body, empty or absent payload fields) the explanation
helper returns a string (`Except.ok`) and never lets an exception
propagate (`Except.error`). -/
theorem C8_never_raises (env : PplxEnv)
    (code short_desc long_desc chapter : String) :
    ∃ t, call_perplexity_icd_explanation env code short_desc long_desc chapter
      = Except.ok t := by
  obtain ⟨key, post⟩ := env
  unfold call_perplexity_icd_explanation
  cases key with
  | none => exact ⟨_, rfl⟩
  | some k =>
    cases h : pplx_try_body ⟨some k, post⟩ with
    | ok s => exact ⟨s, rfl⟩
    | error e => exact ⟨"AI error: " ++ e, rfl⟩

/-- C9: `apply_filters` mutates none of its inputs: in the store model,
every frame allocated before the call — in particular the input table — is
unchanged (same contents, same reference) after the call, whether the call
returns or raises. -/
theorem C9_no_mutation (s : PdStore) (i : Nat) (p : Params)
    (h : i < s.frames.length) :
    (apply_filters_st s i p).1.frames.take s.frames.length = s.frames
    ∧ pdRead (apply_filters_st s i p).1 i = pdRead s i := by
  obtain ⟨l, hl⟩ := storeExtApplyFilters s i p
  constructor
  · rw [hl]
    exact List.take_left s.frames l
  · unfold pdRead
    rw [hl]
    exact List.getD_append s.frames l [] i h

/-- Witness for C9_no_mutation on a one-frame store holding the
`dsChapterHit` table, with the query "gamma". -/
theorem C9_no_mutation_witness :
    (apply_filters_st storeOne 0 paramsGamma).1.frames.take storeOne.frames.length
      = storeOne.frames
    ∧ pdRead (apply_filters_st storeOne 0 paramsGamma).1 0 = pdRead storeOne 0 :=
  C9_no_mutation storeOne 0 paramsGamma (by simp [storeOne])

end ICD10
